import Mathlib

/-!
Shallow embedding of the shader-reflection and layout-merge core of the
`rendy` repository (crates `rendy-shader` and `rendy-graph`,
files `shader/src/reflect.rs` and `graph/src/reflect.rs`).

Machine integers (`u32`, `usize`) are modelled as `Nat`; none of the
operations below can overflow on the inputs considered (only comparisons,
increments by small reflected counts, and bit-ors of small masks occur).
Fallible Rust functions returning `Result<T, failure::Error>` are modelled
as `Except RErr T` where `RErr` has one constructor per distinct `bail!` /
`format_err!` site relevant to the claims.  Rust `panic!` is modelled as
the `Except.error` case of an `Except` result.
-/

namespace Rendy

/-- Shader stage flags (`gfx_hal::pso::ShaderStageFlags`), a bitset modelled
as a `Nat` mask.  Bit values follow gfx-hal. -/
def VERTEX : Nat := 0x1
/-- HULL (tessellation control) stage bit. -/
def HULL : Nat := 0x2
/-- DOMAIN (tessellation evaluation) stage bit. -/
def DOMAINN : Nat := 0x4
/-- GEOMETRY stage bit. -/
def GEOMETRY : Nat := 0x8
/-- FRAGMENT stage bit. -/
def FRAGMENT : Nat := 0x10
/-- COMPUTE stage bit. -/
def COMPUTE : Nat := 0x20

/-- `gfx_hal::pso::DescriptorType`: the closed table of resource kinds. -/
inductive DescriptorType where
  | Sampler
  | CombinedImageSampler
  | SampledImage
  | StorageImage
  | UniformTexelBuffer
  | StorageTexelBuffer
  | UniformBuffer
  | StorageBuffer
  | UniformBufferDynamic
  | StorageBufferDynamic
  | InputAttachment
deriving DecidableEq, Repr

/-- `gfx_hal::pso::DescriptorSetLayoutBinding`: a canonical resource
binding (binding index, kind, element count, stage mask, immutable-sampler
flag). -/
structure DescriptorSetLayoutBinding where
  binding : Nat
  ty : DescriptorType
  count : Nat
  stage_flags : Nat
  immutable_samplers : Bool
deriving DecidableEq, Repr

/-- `rendy_graph::node::render::SetLayout`: one descriptor set of a layout. -/
structure SetLayout where
  bindings : List DescriptorSetLayoutBinding
deriving DecidableEq, Repr

/-- A push-constant range `(ShaderStageFlags, Range<u32>)`:
stage mask plus start/end offsets. -/
structure PushConstantRange where
  stages : Nat
  start : Nat
  stop : Nat
deriving DecidableEq, Repr

/-- `rendy_graph::node::render::Layout`: ordered descriptor sets plus
push-constant ranges. -/
structure Layout where
  sets : List SetLayout
  push_constants : List PushConstantRange
deriving DecidableEq, Repr

/-- `BindingEquality` (graph/src/reflect.rs): three-way comparison result
for two descriptor-set layout bindings. -/
inductive BindingEquality where
  | Equal
  | SameBindingNonEqual
  | NotEqual
deriving DecidableEq, Repr

/-- `compare_bindings` (graph/src/reflect.rs lines 233-246): `Equal` when
binding index, count, immutable-sampler flag and type all match;
`SameBindingNonEqual` when only the binding index matches; `NotEqual`
otherwise. -/
def compare_bindings (lhv rhv : DescriptorSetLayoutBinding) : BindingEquality :=
  if lhv.binding = rhv.binding ∧ lhv.count = rhv.count
      ∧ lhv.immutable_samplers = rhv.immutable_samplers ∧ lhv.ty = rhv.ty then
    BindingEquality.Equal
  else if lhv.binding = rhv.binding then
    BindingEquality.SameBindingNonEqual
  else
    BindingEquality.NotEqual

end Rendy

namespace Rendy

/-- The merge-time error carried by the `failure::format_err!` at
graph/src/reflect.rs line 150: the conflicting binding index and the set
index `n` of the first layout. -/
structure BindingConflict where
  binding : Nat
  set_index : Nat
deriving DecidableEq, Repr

/-- One step of the innermost loop of the pair merge
(graph/src/reflect.rs lines 139-157): classify `(descriptor_1,
descriptor_2)` and extend `out_set`, or abort the whole merge. -/
def mergeBindingStep (n : Nat) (out : List DescriptorSetLayoutBinding)
    (descriptor_1 descriptor_2 : DescriptorSetLayoutBinding) :
    Except BindingConflict (List DescriptorSetLayoutBinding) :=
  match compare_bindings descriptor_1 descriptor_2 with
  | BindingEquality.Equal =>
      Except.ok (out ++ [{ descriptor_1 with stage_flags := FRAGMENT ||| VERTEX }])
  | BindingEquality.SameBindingNonEqual =>
      Except.error { binding := descriptor_1.binding, set_index := n }
  | BindingEquality.NotEqual =>
      Except.ok (out ++ [descriptor_1])

/-- The body run for the set `set_1` at index `n` of the first layout when
the second layout has at least one set (graph/src/reflect.rs lines
134-161): for every `set_2` of the second layout whose binding count is at
least `n`, compare every binding of `set_1` against every binding of
`set_2`. -/
def mergeSetAgainstSecond (n : Nat) (set_1 : SetLayout) (second : Layout) :
    Except BindingConflict (List DescriptorSetLayoutBinding) :=
  second.sets.foldlM
    (fun out set_2 =>
      if n ≤ set_2.bindings.length then
        set_1.bindings.foldlM
          (fun out descriptor_1 =>
            set_2.bindings.foldlM
              (fun out descriptor_2 => mergeBindingStep n out descriptor_1 descriptor_2)
              out)
          out
      else Except.ok out)
    []

/-- The main loop of the pair merge (graph/src/reflect.rs lines 131-169):
one output `SetLayout` per set of the first layout; when the second layout
has no sets at all, the bindings of every set of the first layout are
pushed into the current output set. -/
def mergeFirstPass (first second : Layout) :
    Except BindingConflict (List SetLayout) :=
  first.sets.enum.foldlM
    (fun set_layouts p => do
      let out_set ←
        if second.sets.isEmpty then
          Except.ok ((first.sets.map SetLayout.bindings).flatten)
        else
          mergeSetAgainstSecond p.fst p.snd second
      Except.ok (set_layouts ++ [{ bindings := out_set }]))
    []

/-- The trailing pass of the pair merge (graph/src/reflect.rs lines
174-183): every binding of the second layout is pushed once for every
already-produced output set that contains no `Equal` binding. -/
def trailingSet (second : Layout) (set_layouts : List SetLayout) :
    List DescriptorSetLayoutBinding :=
  (second.sets.map
    (fun set =>
      (set.bindings.map
        (fun descriptor =>
          (set_layouts.map
            (fun existing_set =>
              match existing_set.bindings.find?
                  (fun v => compare_bindings v descriptor == BindingEquality.Equal) with
              | none => [descriptor]
              | some _ => [])).flatten)).flatten)).flatten

/-- `layout` of `impl ShaderLayoutGenerator for (S, S)`
(graph/src/reflect.rs lines 123-194), acting on the two already-extracted
layouts: the pairwise merge of two per-stage layouts.  Note the source
builds the result with `push_constants: Vec::new()`. -/
def mergePairLayout (first second : Layout) : Except BindingConflict Layout := do
  let set_layouts ← mergeFirstPass first second
  let out_set := trailingSet second set_layouts
  let set_layouts :=
    if out_set.length > 0 then set_layouts ++ [{ bindings := out_set }] else set_layouts
  Except.ok { sets := set_layouts, push_constants := [] }

end Rendy

namespace Rendy

/-! Embedding of `shader/src/reflect.rs`. -/

/-- `gfx_hal::format::Format`, restricted to the constructors that appear
in `type_element_format` (shader/src/reflect.rs lines 36-126). -/
inductive Format where
  | R8Int | Rg8Int | Rgb8Int | Rgba8Int
  | R8Uint | Rg8Uint | Rgb8Uint | Rgba8Uint
  | R16Int | Rg16Int | Rgb16Int | Rgba16Int
  | R16Uint | Rg16Uint | Rgb16Uint | Rgba16Uint
  | R32Int | Rg32Int | Rgb32Int | Rgba32Int
  | R32Uint | Rg32Uint | Rgb32Uint | Rgba32Uint
  | R64Int | Rg64Int | Rgb64Int | Rgba64Int
  | R64Uint | Rg64Uint | Rgb64Uint | Rgba64Uint
  | R32Float | Rg32Float | Rgb32Float | Rgba32Float
  | R64Float | Rg64Float | Rgb64Float | Rgba64Float
deriving DecidableEq, Repr

/-- One constructor per distinct `bail!` / `format_err!` site of
shader/src/reflect.rs that the claims touch. -/
inductive RErr where
  | unrecognizedSignedness
  | unrecognizedType
  | unrecognizedWidth
  | unrecognizedComponentCount
  | noTypeDescription
  | accelerationStructureNV
  | undefinedDescriptorType
deriving DecidableEq, Repr

/-- `spirv_reflect::types::ReflectTypeFlags` bit for INT. -/
def INTFLAG : Nat := 0x4
/-- `spirv_reflect::types::ReflectTypeFlags` bit for FLOAT. -/
def FLOATFLAG : Nat := 0x8

/-- `bitflags::contains`: `self & other == other`. -/
def containsFlag (flags flag : Nat) : Bool := flags &&& flag = flag

/-- The numeric part of `ReflectTypeDescriptionTraits` that
`type_element_format` reads: `numeric.scalar.signedness`,
`numeric.scalar.width` and `numeric.vector.component_count`. -/
structure NumericTraits where
  signedness : Nat
  width : Nat
  component_count : Nat
deriving DecidableEq, Repr

/-- The local `enum NumTy` of `type_element_format`. -/
inductive NumTy where
  | SInt
  | UInt
  | Float
deriving DecidableEq, Repr

/-- First step of `type_element_format` (lines 46-61): pick the numeric
kind from the INT / FLOAT type flags and the signedness. -/
def numTyOf (flags : Nat) (traits : NumericTraits) : Except RErr NumTy :=
  if containsFlag flags INTFLAG then
    match traits.signedness with
    | 0 => Except.ok NumTy.UInt
    | 1 => Except.ok NumTy.SInt
    | _ => Except.error RErr.unrecognizedSignedness
  else if containsFlag flags FLOATFLAG then
    Except.ok NumTy.Float
  else
    Except.error RErr.unrecognizedType

/-- Second step of `type_element_format` (lines 63-80): the base scalar
format from (numeric kind, bit width). -/
def baseScalar (num_ty : NumTy) (width : Nat) : Except RErr Format :=
  match num_ty with
  | NumTy.SInt =>
      if width = 8 then Except.ok Format.R8Int
      else if width = 16 then Except.ok Format.R16Int
      else if width = 32 then Except.ok Format.R32Int
      else if width = 64 then Except.ok Format.R64Int
      else Except.error RErr.unrecognizedWidth
  | NumTy.UInt =>
      if width = 8 then Except.ok Format.R8Uint
      else if width = 16 then Except.ok Format.R16Uint
      else if width = 32 then Except.ok Format.R32Uint
      else if width = 64 then Except.ok Format.R64Uint
      else Except.error RErr.unrecognizedWidth
  | NumTy.Float =>
      if width = 32 then Except.ok Format.R32Float
      else if width = 64 then Except.ok Format.R64Float
      else Except.error RErr.unrecognizedWidth

/-- Third step of `type_element_format` (lines 82-121): widen the scalar
format to its 2/3/4-component sibling. -/
def widenFormat (current_type : Format) (component_count : Nat) : Except RErr Format :=
  match current_type with
  | Format.R8Int =>
      if component_count = 2 then Except.ok Format.Rg8Int
      else if component_count = 3 then Except.ok Format.Rgb8Int
      else if component_count = 4 then Except.ok Format.Rgba8Int
      else Except.error RErr.unrecognizedComponentCount
  | Format.R16Int =>
      if component_count = 2 then Except.ok Format.Rg16Int
      else if component_count = 3 then Except.ok Format.Rgb16Int
      else if component_count = 4 then Except.ok Format.Rgba16Int
      else Except.error RErr.unrecognizedComponentCount
  | Format.R32Int =>
      if component_count = 2 then Except.ok Format.Rg32Int
      else if component_count = 3 then Except.ok Format.Rgb32Int
      else if component_count = 4 then Except.ok Format.Rgba32Int
      else Except.error RErr.unrecognizedComponentCount
  | Format.R64Int =>
      if component_count = 2 then Except.ok Format.Rg64Int
      else if component_count = 3 then Except.ok Format.Rgb64Int
      else if component_count = 4 then Except.ok Format.Rgba64Int
      else Except.error RErr.unrecognizedComponentCount
  | Format.R8Uint =>
      if component_count = 2 then Except.ok Format.Rg8Uint
      else if component_count = 3 then Except.ok Format.Rgb8Uint
      else if component_count = 4 then Except.ok Format.Rgba8Uint
      else Except.error RErr.unrecognizedComponentCount
  | Format.R16Uint =>
      if component_count = 2 then Except.ok Format.Rg16Uint
      else if component_count = 3 then Except.ok Format.Rgb16Uint
      else if component_count = 4 then Except.ok Format.Rgba16Uint
      else Except.error RErr.unrecognizedComponentCount
  | Format.R32Uint =>
      if component_count = 2 then Except.ok Format.Rg32Uint
      else if component_count = 3 then Except.ok Format.Rgb32Uint
      else if component_count = 4 then Except.ok Format.Rgba32Uint
      else Except.error RErr.unrecognizedComponentCount
  | Format.R64Uint =>
      if component_count = 2 then Except.ok Format.Rg64Uint
      else if component_count = 3 then Except.ok Format.Rgb64Uint
      else if component_count = 4 then Except.ok Format.Rgba64Uint
      else Except.error RErr.unrecognizedComponentCount
  | Format.R32Float =>
      if component_count = 2 then Except.ok Format.Rg32Float
      else if component_count = 3 then Except.ok Format.Rgb32Float
      else if component_count = 4 then Except.ok Format.Rgba32Float
      else Except.error RErr.unrecognizedComponentCount
  | Format.R64Float =>
      if component_count = 2 then Except.ok Format.Rg64Float
      else if component_count = 3 then Except.ok Format.Rgb64Float
      else if component_count = 4 then Except.ok Format.Rgba64Float
      else Except.error RErr.unrecognizedComponentCount
  | _ => Except.error RErr.unrecognizedComponentCount

/-- `type_element_format` (shader/src/reflect.rs lines 36-126). -/
def type_element_format (flags : Nat) (traits : NumericTraits) : Except RErr Format := do
  let num_ty ← numTyOf flags traits
  let current_type ← baseScalar num_ty traits.width
  if traits.component_count > 1 then
    widenFormat current_type traits.component_count
  else
    Except.ok current_type

/-- `ReflectTypeDescription`: the two pieces read by conversion. -/
structure ReflectTypeDescription where
  type_flags : Nat
  traits : NumericTraits
deriving DecidableEq, Repr

/-- `gfx_hal::pso::Element<Format>`. -/
structure Element where
  format : Format
  offset : Nat
deriving DecidableEq, Repr

/-- `impl ReflectInto<Element<Format>> for ReflectTypeDescription`
(lines 128-136): format from `type_element_format`, offset 0. -/
def reflectElement (td : ReflectTypeDescription) : Except RErr Element := do
  let format ← type_element_format td.type_flags td.traits
  Except.ok { format := format, offset := 0 }

/-- `spirv_reflect::types::ReflectInterfaceVariable`: the fields read by
attribute generation — `location`, `array.dims`, `type_description`. -/
structure ReflectInterfaceVariable where
  location : Nat
  array_dims : List Nat
  type_description : Option ReflectTypeDescription
deriving DecidableEq, Repr

/-- `gfx_hal::pso::AttributeDesc`. -/
structure AttributeDesc where
  location : Nat
  binding : Nat
  element : Element
deriving DecidableEq, Repr

/-- `impl ReflectInto<AttributeDesc> for ReflectInterfaceVariable`
(lines 138-151): location and binding are both the variable's location;
missing type description is an error. -/
def reflectAttributeDesc (v : ReflectInterfaceVariable) : Except RErr AttributeDesc :=
  match v.type_description with
  | none => Except.error RErr.noTypeDescription
  | some td => do
      let element ← reflectElement td
      Except.ok { location := v.location, binding := v.location, element := element }

/-- `generate_attributes` (shader/src/reflect.rs lines 259-278), written
as structural recursion over the enumeration order: a variable with empty
`array.dims` contributes one descriptor; otherwise one descriptor per
element of the first dimension, with the location incremented by the
element index. -/
def generate_attributes : List ReflectInterfaceVariable →
    Except RErr (List AttributeDesc)
  | [] => Except.ok []
  | attrib :: rest => do
      let reflected ← reflectAttributeDesc attrib
      let expanded :=
        match attrib.array_dims with
        | [] => [reflected]
        | k :: _ =>
            (List.range k).map (fun n => { reflected with location := reflected.location + n })
      let tail ← generate_attributes rest
      Except.ok (expanded ++ tail)

/-- `spirv_reflect::types::ReflectDescriptorType`: the raw descriptor
kinds, including the two unsupported ones. -/
inductive ReflectDescriptorType where
  | Sampler | CombinedImageSampler | SampledImage | StorageImage
  | UniformTexelBuffer | StorageTexelBuffer | UniformBuffer | StorageBuffer
  | UniformBufferDynamic | StorageBufferDynamic | InputAttachment
  | AccelerationStructureNV | Undefined
deriving DecidableEq, Repr

/-- `impl ReflectInto<DescriptorType> for ReflectDescriptorType`
(lines 156-181): the closed conversion table. -/
def reflectDescriptorType : ReflectDescriptorType → Except RErr DescriptorType
  | ReflectDescriptorType.Sampler => Except.ok DescriptorType.Sampler
  | ReflectDescriptorType.CombinedImageSampler => Except.ok DescriptorType.CombinedImageSampler
  | ReflectDescriptorType.SampledImage => Except.ok DescriptorType.SampledImage
  | ReflectDescriptorType.StorageImage => Except.ok DescriptorType.StorageImage
  | ReflectDescriptorType.UniformTexelBuffer => Except.ok DescriptorType.UniformTexelBuffer
  | ReflectDescriptorType.StorageTexelBuffer => Except.ok DescriptorType.StorageTexelBuffer
  | ReflectDescriptorType.UniformBuffer => Except.ok DescriptorType.UniformBuffer
  | ReflectDescriptorType.StorageBuffer => Except.ok DescriptorType.StorageBuffer
  | ReflectDescriptorType.UniformBufferDynamic => Except.ok DescriptorType.UniformBufferDynamic
  | ReflectDescriptorType.StorageBufferDynamic => Except.ok DescriptorType.StorageBufferDynamic
  | ReflectDescriptorType.InputAttachment => Except.ok DescriptorType.InputAttachment
  | ReflectDescriptorType.AccelerationStructureNV => Except.error RErr.accelerationStructureNV
  | ReflectDescriptorType.Undefined => Except.error RErr.undefinedDescriptorType

/-- `spirv_reflect::types::ReflectDescriptorBinding`: the fields read by
conversion. -/
structure ReflectDescriptorBinding where
  binding : Nat
  descriptor_type : ReflectDescriptorType
  count : Nat
deriving DecidableEq, Repr

/-- `impl ReflectInto<DescriptorSetLayoutBinding> for
ReflectDescriptorBinding` (lines 193-203): stage flags are initialised to
VERTEX (later fixed up), immutable samplers always false. -/
def reflectBinding (d : ReflectDescriptorBinding) :
    Except RErr DescriptorSetLayoutBinding := do
  let ty ← reflectDescriptorType d.descriptor_type
  Except.ok { binding := d.binding, ty := ty, count := d.count,
              stage_flags := VERTEX, immutable_samplers := false }

/-- `impl ReflectInto<Vec<DescriptorSetLayoutBinding>> for
ReflectDescriptorSet` (lines 183-192). -/
def reflectSet (bindings : List ReflectDescriptorBinding) :
    Except RErr (List DescriptorSetLayoutBinding) :=
  bindings.mapM reflectBinding

/-- `ReflectBlockVariable`: the fields read by `convert_push_constant`. -/
structure ReflectBlockVariable where
  offset : Nat
  size : Nat
deriving DecidableEq, Repr

/-- `convert_push_constant` (lines 205-213): range is
`offset .. offset / 4 + size / 4`. -/
def convert_push_constant (stage : Nat) (v : ReflectBlockVariable) :
    Except RErr PushConstantRange :=
  Except.ok { stages := stage, start := v.offset, stop := v.offset / 4 + v.size / 4 }

/-- `spirv_reflect` stage bit for VERTEX. -/
def SPV_VERTEX : Nat := 0x1
/-- `spirv_reflect` stage bit for TESSELLATION_CONTROL. -/
def SPV_TESS_CONTROL : Nat := 0x2
/-- `spirv_reflect` stage bit for TESSELLATION_EVALUATION. -/
def SPV_TESS_EVAL : Nat := 0x4
/-- `spirv_reflect` stage bit for GEOMETRY. -/
def SPV_GEOMETRY : Nat := 0x8
/-- `spirv_reflect` stage bit for FRAGMENT. -/
def SPV_FRAGMENT : Nat := 0x10
/-- `spirv_reflect` stage bit for COMPUTE. -/
def SPV_COMPUTE : Nat := 0x20

/-- `convert_stage` (lines 215-238): translate recognised spirv-reflect
stage bits to gfx-hal bits, dropping unrecognised ones. -/
def convert_stage (stage : Nat) : Nat :=
  let bits := 0
  let bits := if containsFlag stage SPV_VERTEX then bits ||| VERTEX else bits
  let bits := if containsFlag stage SPV_FRAGMENT then bits ||| FRAGMENT else bits
  let bits := if containsFlag stage SPV_GEOMETRY then bits ||| GEOMETRY else bits
  let bits := if containsFlag stage SPV_COMPUTE then bits ||| COMPUTE else bits
  let bits := if containsFlag stage SPV_TESS_CONTROL then bits ||| HULL else bits
  let bits := if containsFlag stage SPV_TESS_EVAL then bits ||| DOMAINN else bits
  bits

/-- `SpirvShaderDescription` (shader/src/reflect.rs lines 240-257).
Raw bytes are modelled as a list of byte values. -/
structure SpirvShaderDescription where
  output_attributes : List AttributeDesc
  input_attributes : List AttributeDesc
  descriptor_sets : List (List DescriptorSetLayoutBinding)
  stage_flag : Nat
  push_constants : List PushConstantRange
  spirv : List Nat
deriving DecidableEq, Repr

/-- The enumerations a loaded `spirv_reflect::ShaderModule` exposes to
`SpirvShaderDescription::from_bytes`; loading itself lives in the external
`spirv-reflect` crate, so `from_bytes` is modelled from a loaded module. -/
structure ShaderModule where
  stage : Nat
  input_variables : List ReflectInterfaceVariable
  output_variables : List ReflectInterfaceVariable
  descriptor_sets : List (List ReflectDescriptorBinding)
  push_constant_blocks : List ReflectBlockVariable
deriving DecidableEq, Repr

/-- `SpirvShaderDescription::from_bytes` (lines 290-365), from the loaded
module.  NOTE (faithful to the source, line 308): the `output_attributes`
are generated from `module.enumerate_input_variables`, exactly like the
`input_attributes`; the module's output variables are never consulted. -/
def from_bytes (module : ShaderModule) (data : List Nat) :
    Except RErr SpirvShaderDescription := do
  let stage_flag := convert_stage module.stage
  let input_attributes := generate_attributes module.input_variables
  let output_attributes := generate_attributes module.input_variables
  let descriptor_sets ← module.descriptor_sets.mapM reflectSet
  let descriptor_sets_final :=
    descriptor_sets.map (fun v => v.map (fun set => { set with stage_flags := stage_flag }))
  let input_attributes ← input_attributes
  let output_attributes ← output_attributes
  let push_constants ← module.push_constant_blocks.mapM (convert_push_constant stage_flag)
  Except.ok { input_attributes := input_attributes,
              output_attributes := output_attributes,
              descriptor_sets := descriptor_sets_final,
              push_constants := push_constants,
              stage_flag := stage_flag,
              spirv := data }

/-- `attributes` of `impl ShaderLayoutGenerator for SpirvShaderDescription`
(graph/src/reflect.rs lines 33-41): input attribute elements plus a zero
stride. -/
def attributesDesc (s : SpirvShaderDescription) : List Element × Nat :=
  (s.input_attributes.map AttributeDesc.element, 0)

/-- The outcome of `attributes` of `impl ShaderLayoutGenerator for (S, S)`:
the `panic!` branch is modelled as this error. -/
inductive AttributesError where
  | noVertexStage
deriving DecidableEq, Repr

/-- `attributes` of `impl ShaderLayoutGenerator for (S, S)`
(graph/src/reflect.rs lines 196-204), instantiated at
`S = SpirvShaderDescription` (whose `stage()` is `stage_flag`): take the
attributes of whichever component's stage equals VERTEX, else panic. -/
def attributesPair (s1 s2 : SpirvShaderDescription) :
    Except AttributesError (List Element × Nat) :=
  if s1.stage_flag = VERTEX then Except.ok (attributesDesc s1)
  else if s2.stage_flag = VERTEX then Except.ok (attributesDesc s2)
  else Except.error AttributesError.noVertexStage

end Rendy

namespace Rendy

/-! Concrete inputs used by counterexamples, code-bug evaluations and
witnesses. -/

/-- A uniform-buffer binding 0, count 1, vertex stage. -/
def bindUniform0 : DescriptorSetLayoutBinding :=
  { binding := 0, ty := DescriptorType.UniformBuffer, count := 1,
    stage_flags := VERTEX, immutable_samplers := false }

/-- A storage-buffer binding 0, count 1, fragment stage. -/
def bindStorage0 : DescriptorSetLayoutBinding :=
  { binding := 0, ty := DescriptorType.StorageBuffer, count := 1,
    stage_flags := FRAGMENT, immutable_samplers := false }

/-- A uniform-buffer binding 0, count 1, geometry stage. -/
def bindGeom0 : DescriptorSetLayoutBinding :=
  { bindUniform0 with stage_flags := GEOMETRY }

/-- A uniform-buffer binding 0, count 1, fragment stage. -/
def bindFrag0 : DescriptorSetLayoutBinding :=
  { bindUniform0 with stage_flags := FRAGMENT }

/-- A sampled-image binding 1, count 1, vertex stage. -/
def bindImage1 : DescriptorSetLayoutBinding :=
  { binding := 1, ty := DescriptorType.SampledImage, count := 1,
    stage_flags := VERTEX, immutable_samplers := false }

/-- A scalar float32 type description. -/
def tdFloat32 : ReflectTypeDescription :=
  { type_flags := FLOATFLAG, traits := { signedness := 0, width := 32, component_count := 1 } }

/-- A float32 scalar input variable at location 5 with array dims [3]. -/
def varArr3 : ReflectInterfaceVariable :=
  { location := 5, array_dims := [3], type_description := some tdFloat32 }

/-- A float32 scalar input variable at location 5 with array dims [2]. -/
def varArr2 : ReflectInterfaceVariable :=
  { location := 5, array_dims := [2], type_description := some tdFloat32 }

/-- A float32 scalar input variable at location 0, no array dims. -/
def varScalar0 : ReflectInterfaceVariable :=
  { location := 0, array_dims := [], type_description := some tdFloat32 }

/-- A float32 scalar output variable at location 1, no array dims. -/
def varScalar1 : ReflectInterfaceVariable :=
  { location := 1, array_dims := [], type_description := some tdFloat32 }

/-- A module whose output interface (location 1) differs from its input
interface (location 0). -/
def moduleC7 : ShaderModule :=
  { stage := SPV_VERTEX, input_variables := [varScalar0],
    output_variables := [varScalar1], descriptor_sets := [],
    push_constant_blocks := [] }

/-- The description `from_bytes` produces for `moduleC7`: both attribute
lists are generated from the module's input variables. -/
def descC7 : SpirvShaderDescription :=
  { output_attributes := [{ location := 0, binding := 0,
                            element := { format := Format.R32Float, offset := 0 } }],
    input_attributes := [{ location := 0, binding := 0,
                           element := { format := Format.R32Float, offset := 0 } }],
    descriptor_sets := [], stage_flag := VERTEX, push_constants := [], spirv := [] }

/-- A fragment-only shader description with no attributes or sets. -/
def descFragOnly : SpirvShaderDescription :=
  { output_attributes := [], input_attributes := [], descriptor_sets := [],
    stage_flag := FRAGMENT, push_constants := [], spirv := [] }

/-- A compute-only shader description with no attributes or sets. -/
def descComputeOnly : SpirvShaderDescription :=
  { descFragOnly with stage_flag := COMPUTE }

/-- A vertex shader description with one reflected input attribute. -/
def descVertex : SpirvShaderDescription :=
  { output_attributes := [],
    input_attributes := [{ location := 0, binding := 0,
                           element := { format := Format.Rgb32Float, offset := 0 } }],
    descriptor_sets := [], stage_flag := VERTEX, push_constants := [], spirv := [] }

end Rendy

namespace Rendy

/-! Helper lemmas shared by the claim theorems. -/

lemma compare_bindings_equal_iff (a b : DescriptorSetLayoutBinding) :
    compare_bindings a b = BindingEquality.Equal ↔
      (a.binding = b.binding ∧ a.count = b.count
        ∧ a.immutable_samplers = b.immutable_samplers ∧ a.ty = b.ty) := by
  unfold compare_bindings
  split_ifs with h1 <;> simp_all

lemma compare_bindings_stage_left (a b : DescriptorSetLayoutBinding) (s : Nat) :
    compare_bindings { a with stage_flags := s } b = compare_bindings a b := by
  unfold compare_bindings
  split_ifs <;> simp_all

lemma baseScalar_width_error (nt : NumTy) (w : Nat) (h8 : w ≠ 8) (h16 : w ≠ 16)
    (h32 : w ≠ 32) (h64 : w ≠ 64) :
    baseScalar nt w = Except.error RErr.unrecognizedWidth := by
  cases nt <;> simp [baseScalar, h8, h16, h32, h64]

lemma baseScalar_float_width_error (w : Nat) (h32 : w ≠ 32) (h64 : w ≠ 64) :
    baseScalar NumTy.Float w = Except.error RErr.unrecognizedWidth := by
  simp [baseScalar, h32, h64]

lemma widenFormat_count_error (fmt : Format) (c : Nat) (h2 : c ≠ 2) (h3 : c ≠ 3)
    (h4 : c ≠ 4) :
    widenFormat fmt c = Except.error RErr.unrecognizedComponentCount := by
  cases fmt <;> simp [widenFormat, h2, h3, h4]

lemma reflectAttributeDesc_shape (v : ReflectInterfaceVariable) (a : AttributeDesc)
    (h : reflectAttributeDesc v = Except.ok a) :
    a.binding = v.location ∧ a.location = v.location ∧ a.element.offset = 0 := by
  cases v with
  | mk loc dims tdo =>
      cases tdo with
      | none => exact absurd h (by simp [reflectAttributeDesc])
      | some td =>
          simp only [reflectAttributeDesc] at h
          unfold reflectElement at h
          cases hfe : type_element_format td.type_flags td.traits with
          | error e => rw [hfe] at h; simp [Bind.bind, Except.bind] at h
          | ok f =>
              rw [hfe] at h
              simp [Bind.bind, Except.bind] at h
              rw [← h]
              exact ⟨rfl, rfl, rfl⟩

end Rendy

namespace Rendy

/-- C3: `compare_bindings` returns `Equal` exactly when binding index,
count, immutable-sampler flag and type all match (hence `compare a a =
Equal`), `SameBindingNonEqual` exactly when the binding indices match but
not all of the other three fields, and `NotEqual` exactly when the binding
indices differ; the stage masks never influence the result. -/
theorem claim_C3 (a b : DescriptorSetLayoutBinding) :
    (compare_bindings a b = BindingEquality.Equal ↔
      (a.binding = b.binding ∧ a.count = b.count
        ∧ a.immutable_samplers = b.immutable_samplers ∧ a.ty = b.ty))
    ∧ (compare_bindings a b = BindingEquality.SameBindingNonEqual ↔
      (a.binding = b.binding ∧
        ¬ (a.count = b.count ∧ a.immutable_samplers = b.immutable_samplers ∧ a.ty = b.ty)))
    ∧ (compare_bindings a b = BindingEquality.NotEqual ↔ a.binding ≠ b.binding)
    ∧ compare_bindings a a = BindingEquality.Equal
    ∧ (∀ s s' : Nat,
        compare_bindings { a with stage_flags := s } { b with stage_flags := s' }
          = compare_bindings a b) := by
  unfold compare_bindings
  refine ⟨?_, ?_, ?_, ?_, ?_⟩ <;> try simp
  · split_ifs with h1 <;> simp_all
  · split_ifs with h1 <;> simp_all
  · split_ifs with h1 h2 <;> simp_all

/-- C1 (code bug): the claim says a `SameBindingNonEqual` pair at the same
set index always fails the whole merge.  The source guard
`n <= set_2.bindings.len()` (graph/src/reflect.rs line 136) compares the
set index against a binding count, so a conflict at set index 2 between
two sets holding a single binding each is never classified: the merge
succeeds, drops the first stage's conflicting binding, and appends the
second stage's binding three times. -/
theorem claim_C1 :
    compare_bindings bindUniform0 bindStorage0 = BindingEquality.SameBindingNonEqual
    ∧ mergePairLayout
        { sets := [{ bindings := [] }, { bindings := [] }, { bindings := [bindUniform0] }],
          push_constants := [] }
        { sets := [{ bindings := [] }, { bindings := [] }, { bindings := [bindStorage0] }],
          push_constants := [] }
      = Except.ok
        { sets := [{ bindings := [] }, { bindings := [] }, { bindings := [] },
                   { bindings := [bindStorage0, bindStorage0, bindStorage0] }],
          push_constants := [] } :=
  ⟨rfl, rfl⟩

/-- C2 (counterexample): two identical bindings shared by a geometry stage
and a fragment stage merge into a single binding whose stage mask is the
hard-coded `FRAGMENT | VERTEX`, not the union `GEOMETRY | FRAGMENT` of the
two input stages' masks. -/
theorem claim_C2_counterexample :
    bindGeom0.stage_flags = GEOMETRY ∧ bindFrag0.stage_flags = FRAGMENT
    ∧ compare_bindings bindGeom0 bindFrag0 = BindingEquality.Equal
    ∧ mergePairLayout
        { sets := [{ bindings := [bindGeom0] }], push_constants := [] }
        { sets := [{ bindings := [bindFrag0] }], push_constants := [] }
      = Except.ok
        { sets := [{ bindings := [{ bindGeom0 with stage_flags := FRAGMENT ||| VERTEX }] }],
          push_constants := [] }
    ∧ FRAGMENT ||| VERTEX ≠ GEOMETRY ||| FRAGMENT :=
  ⟨rfl, rfl, rfl, rfl, by decide⟩

/-- C2 (amended): when each of the two stage descriptions consists of a
single descriptor set holding one binding and the two bindings agree on
binding index, element count, immutable-sampler flag and kind, the merged
layout contains exactly one copy of that binding, with the same index and
kind, and with stage mask equal to the fixed `FRAGMENT | VERTEX` mask
(regardless of the input stages' own masks). -/
theorem claim_C2 (i c : Nat) (t : DescriptorType) (im : Bool) (s1 s2 : Nat)
    (pc1 pc2 : List PushConstantRange) :
    mergePairLayout
      { sets := [{ bindings := [{ binding := i, ty := t, count := c,
                                  stage_flags := s1, immutable_samplers := im }] }],
        push_constants := pc1 }
      { sets := [{ bindings := [{ binding := i, ty := t, count := c,
                                  stage_flags := s2, immutable_samplers := im }] }],
        push_constants := pc2 }
      = Except.ok
        { sets := [{ bindings := [{ binding := i, ty := t, count := c,
                                    stage_flags := FRAGMENT ||| VERTEX,
                                    immutable_samplers := im }] }],
          push_constants := [] } := by
  simp [mergePairLayout, mergeFirstPass, mergeSetAgainstSecond, mergeBindingStep,
    trailingSet, compare_bindings, List.enum, List.foldlM, List.find?,
    Bind.bind, Except.bind, Pure.pure, Except.pure]

/-- C6: from a merged pair, the attribute list is the one of the component
whose stage mask equals VERTEX (the first component winning), and when
neither component's stage is VERTEX the retrieval is fatal (the source
`panic!`s) and no attribute list is produced. -/
theorem claim_C6 (s1 s2 : SpirvShaderDescription) :
    (s1.stage_flag = VERTEX → attributesPair s1 s2 = Except.ok (attributesDesc s1))
    ∧ (s1.stage_flag ≠ VERTEX → s2.stage_flag = VERTEX →
        attributesPair s1 s2 = Except.ok (attributesDesc s2))
    ∧ (s1.stage_flag ≠ VERTEX → s2.stage_flag ≠ VERTEX →
        attributesPair s1 s2 = Except.error AttributesError.noVertexStage) := by
  unfold attributesPair
  exact ⟨fun h => by simp [h], fun h1 h2 => by simp [h1, h2], fun h1 h2 => by simp [h1, h2]⟩

/-- C6 (witness): requesting attributes from a merged fragment-only plus
compute-only pair is the fatal no-vertex-stage outcome. -/
theorem claim_C6_witness :
    attributesPair descFragOnly descComputeOnly = Except.error AttributesError.noVertexStage :=
  (claim_C6 descFragOnly descComputeOnly).2.2 (by decide) (by decide)

/-- C8 (counterexample): merging a stage with a non-empty push-constant
range list yields a layout whose push-constant list is empty, not the
concatenation of the inputs' lists. -/
theorem claim_C8_counterexample :
    (Layout.mk [] [PushConstantRange.mk VERTEX 0 4]).push_constants ≠ []
    ∧ mergePairLayout (Layout.mk [] [PushConstantRange.mk VERTEX 0 4]) (Layout.mk [] [])
        = Except.ok (Layout.mk [] []) :=
  ⟨by decide, rfl⟩

/-- C8 (amended): every successful pairwise merge produces a layout whose
push-constant range list is empty — the input stages' push-constant
ranges are discarded, never concatenated. -/
theorem claim_C8 (first second l : Layout)
    (h : mergePairLayout first second = Except.ok l) : l.push_constants = [] := by
  unfold mergePairLayout at h
  cases hm : mergeFirstPass first second with
  | error e =>
      rw [hm] at h
      simp [Bind.bind, Except.bind] at h
  | ok sls =>
      rw [hm] at h
      simp [Bind.bind, Except.bind] at h
      rw [← h]

/-- C8 (witness): the amended claim applied to two empty layouts. -/
theorem claim_C8_witness : (Layout.mk [] []).push_constants = [] :=
  claim_C8 (Layout.mk [] [PushConstantRange.mk VERTEX 0 4]) (Layout.mk [] [])
    (Layout.mk [] []) rfl

/-- C9 (counterexample): merging a two-set stage description with one that
has no descriptor sets at all duplicates every binding into every output
set (each output set is the concatenation of all input bindings), instead
of passing the sets through unchanged. -/
theorem claim_C9_counterexample :
    mergePairLayout
      { sets := [{ bindings := [bindUniform0] }, { bindings := [bindImage1] }],
        push_constants := [] }
      { sets := [], push_constants := [] }
      = Except.ok
        { sets := [{ bindings := [bindUniform0, bindImage1] },
                   { bindings := [bindUniform0, bindImage1] }],
          push_constants := [] }
    ∧ ([{ bindings := [bindUniform0, bindImage1] },
        { bindings := [bindUniform0, bindImage1] }] : List SetLayout)
        ≠ [{ bindings := [bindUniform0] }, { bindings := [bindImage1] }] :=
  ⟨rfl, by decide⟩

/-- C9 (amended): when the second layout has no descriptor sets and the
first has at most one, the merge yields exactly the first layout's sets
(with the push-constant list rebuilt empty); with two or more accumulated
sets the pass-through no longer holds, as the counterexample shows. -/
theorem claim_C9 (s : SetLayout) (pc1 pc2 : List PushConstantRange) :
    mergePairLayout { sets := [s], push_constants := pc1 }
        { sets := [], push_constants := pc2 }
      = Except.ok { sets := [s], push_constants := [] }
    ∧ mergePairLayout { sets := [], push_constants := pc1 }
        { sets := [], push_constants := pc2 }
      = Except.ok { sets := [], push_constants := [] } := by
  constructor
  · cases s with
    | mk bs =>
        simp [mergePairLayout, mergeFirstPass, trailingSet, List.enum, List.foldlM,
          Bind.bind, Except.bind, Pure.pure, Except.pure]
  · simp [mergePairLayout, mergeFirstPass, trailingSet, List.enum, List.foldlM,
      Bind.bind, Except.bind, Pure.pure, Except.pure]

end Rendy

namespace Rendy

/-- C4: the format mapper follows the decision table — no INT/FLOAT flag
is an error; with a valid numeric kind, any bit width outside
{8,16,32,64} (ints) or {32,64} (floats) is an error; any component count
above 4 over a valid base scalar is an error; float32 with 3 components
maps to the 3-component 32-bit float format, signed int16 with 4
components maps to the 4-component signed 16-bit format, and a
7-component float32 vector is an error — never a default format. -/
theorem claim_C4 :
    (∀ (flags : Nat) (traits : NumericTraits),
        containsFlag flags INTFLAG = false → containsFlag flags FLOATFLAG = false →
        type_element_format flags traits = Except.error RErr.unrecognizedType)
    ∧ (∀ (flags : Nat) (traits : NumericTraits),
        containsFlag flags INTFLAG = true →
        (traits.signedness = 0 ∨ traits.signedness = 1) →
        traits.width ≠ 8 → traits.width ≠ 16 → traits.width ≠ 32 → traits.width ≠ 64 →
        type_element_format flags traits = Except.error RErr.unrecognizedWidth)
    ∧ (∀ (flags : Nat) (traits : NumericTraits),
        containsFlag flags INTFLAG = false → containsFlag flags FLOATFLAG = true →
        traits.width ≠ 32 → traits.width ≠ 64 →
        type_element_format flags traits = Except.error RErr.unrecognizedWidth)
    ∧ (∀ (flags : Nat) (traits : NumericTraits) (nt : NumTy) (fmt : Format),
        numTyOf flags traits = Except.ok nt →
        baseScalar nt traits.width = Except.ok fmt →
        traits.component_count > 4 →
        type_element_format flags traits = Except.error RErr.unrecognizedComponentCount)
    ∧ type_element_format FLOATFLAG { signedness := 0, width := 32, component_count := 3 }
        = Except.ok Format.Rgb32Float
    ∧ type_element_format INTFLAG { signedness := 1, width := 16, component_count := 4 }
        = Except.ok Format.Rgba16Int
    ∧ type_element_format FLOATFLAG { signedness := 0, width := 32, component_count := 7 }
        = Except.error RErr.unrecognizedComponentCount := by
  refine ⟨?_, ?_, ?_, ?_, rfl, rfl, rfl⟩
  · intro flags traits h1 h2
    simp [type_element_format, numTyOf, h1, h2, Bind.bind, Except.bind]
  · rintro flags traits hint (hs | hs) h8 h16 h32 h64 <;>
      simp [type_element_format, numTyOf, hint, hs, Bind.bind, Except.bind,
        baseScalar_width_error _ _ h8 h16 h32 h64]
  · intro flags traits hint hfloat h32 h64
    simp [type_element_format, numTyOf, hint, hfloat, Bind.bind, Except.bind,
      baseScalar_float_width_error _ h32 h64]
  · intro flags traits nt fmt hnt hbase hc
    have h1 : traits.component_count > 1 := by omega
    simp [type_element_format, hnt, hbase, Bind.bind, Except.bind, h1,
      widenFormat_count_error fmt traits.component_count (by omega) (by omega) (by omega)]

/-- C4 (witness): a flagless type is rejected, and a signed int of width
12 is rejected as an unsupported width. -/
theorem claim_C4_witness :
    type_element_format 0 { signedness := 0, width := 32, component_count := 1 }
        = Except.error RErr.unrecognizedType
    ∧ type_element_format INTFLAG { signedness := 1, width := 12, component_count := 1 }
        = Except.error RErr.unrecognizedWidth :=
  ⟨claim_C4.1 0 _ rfl rfl,
   claim_C4.2.1 INTFLAG _ rfl (Or.inr rfl) (by decide) (by decide) (by decide) (by decide)⟩

/-- C5: the attribute builder emits one descriptor at the declared
location for a variable with empty array dimensions, exactly `k`
descriptors at consecutive locations for a first array extent `k`, output
order follows input enumeration order (the builder distributes over
concatenation), and the `[3]`-at-location-5 scenario yields descriptors at
locations 5, 6, 7. -/
theorem claim_C5 :
    (∀ (v : ReflectInterfaceVariable) (a : AttributeDesc),
        reflectAttributeDesc v = Except.ok a → v.array_dims = [] →
        generate_attributes [v] = Except.ok [a])
    ∧ (∀ (v : ReflectInterfaceVariable) (a : AttributeDesc) (k : Nat) (rest : List Nat),
        reflectAttributeDesc v = Except.ok a → v.array_dims = k :: rest →
        generate_attributes [v]
          = Except.ok ((List.range k).map
              (fun n => { a with location := a.location + n })))
    ∧ (∀ (xs ys : List ReflectInterfaceVariable) (ox oy : List AttributeDesc),
        generate_attributes xs = Except.ok ox → generate_attributes ys = Except.ok oy →
        generate_attributes (xs ++ ys) = Except.ok (ox ++ oy))
    ∧ generate_attributes [varArr3]
        = Except.ok
          [{ location := 5, binding := 5,
             element := { format := Format.R32Float, offset := 0 } },
           { location := 6, binding := 5,
             element := { format := Format.R32Float, offset := 0 } },
           { location := 7, binding := 5,
             element := { format := Format.R32Float, offset := 0 } }] := by
  refine ⟨?_, ?_, ?_, rfl⟩
  · intro v a h hdims
    simp [generate_attributes, h, hdims, Bind.bind, Except.bind]
  · intro v a k rest h hdims
    simp [generate_attributes, h, hdims, Bind.bind, Except.bind]
  · intro xs
    induction xs with
    | nil =>
        intro ys ox oy h1 h2
        simp only [generate_attributes] at h1
        injection h1 with h1
        subst h1
        simpa using h2
    | cons v rest ih =>
        intro ys ox oy h1 h2
        simp only [List.cons_append]
        simp only [generate_attributes] at h1 ⊢
        cases hr : reflectAttributeDesc v with
        | error e => rw [hr] at h1; simp [Bind.bind, Except.bind] at h1
        | ok a =>
            rw [hr] at h1
            cases ht : generate_attributes rest with
            | error e => rw [ht] at h1; simp [Bind.bind, Except.bind] at h1
            | ok tr =>
                rw [ht] at h1
                simp only [Bind.bind, Except.bind, Except.ok.injEq] at h1
                rw [ih ys tr oy ht h2]
                simp [Bind.bind, Except.bind, ← h1, List.append_assoc]

/-- C5 (witness): a scalar (no array dimensions) float32 input at location
0 yields exactly one descriptor at location 0. -/
theorem claim_C5_witness :
    generate_attributes [varScalar0]
      = Except.ok [{ location := 0, binding := 0,
                     element := { format := Format.R32Float, offset := 0 } }] :=
  claim_C5.1 varScalar0 _ rfl rfl

/-- C7 (code bug): the claim says the reflected `output_attributes` come
from the module's output-variable enumeration.  The source
(shader/src/reflect.rs line 308) passes `enumerate_input_variables` to
both attribute lists, so for a module whose output interface (one variable
at location 1) differs from its input interface (one variable at location
0) the reflected output attributes equal the input attributes and differ
from what the output variables would generate. -/
theorem claim_C7 :
    from_bytes moduleC7 [] = Except.ok descC7
    ∧ descC7.output_attributes = descC7.input_attributes
    ∧ generate_attributes moduleC7.output_variables
        = Except.ok [{ location := 1, binding := 1,
                       element := { format := Format.R32Float, offset := 0 } }]
    ∧ descC7.output_attributes
        ≠ [{ location := 1, binding := 1,
             element := { format := Format.R32Float, offset := 0 } }] :=
  ⟨rfl, rfl, rfl, by decide⟩

/-- C10 (counterexample): expanding an arrayed variable (dims `[2]`,
location 5) produces a second descriptor whose location is 6 but whose
binding stays 5 — the binding field is not incremented with the
location. -/
theorem claim_C10_counterexample :
    generate_attributes [varArr2]
      = Except.ok
        [{ location := 5, binding := 5,
           element := { format := Format.R32Float, offset := 0 } },
         { location := 6, binding := 5,
           element := { format := Format.R32Float, offset := 0 } }]
    ∧ (AttributeDesc.mk 6 5 (Element.mk Format.R32Float 0)).binding
        ≠ (AttributeDesc.mk 6 5 (Element.mk Format.R32Float 0)).location :=
  ⟨rfl, by decide⟩

/-- C10 (amended): every produced descriptor has element offset zero and
binding equal to the declared location of its source variable; the binding
equals the descriptor's own location for a directly reflected (non-array)
descriptor, while for expanded descriptors the location may exceed the
binding (binding ≤ location always holds). -/
theorem claim_C10 :
    (∀ (v : ReflectInterfaceVariable) (a : AttributeDesc),
        reflectAttributeDesc v = Except.ok a →
        a.binding = v.location ∧ a.location = v.location ∧ a.element.offset = 0)
    ∧ (∀ (vars : List ReflectInterfaceVariable) (out : List AttributeDesc),
        generate_attributes vars = Except.ok out →
        ∀ a ∈ out, a.element.offset = 0 ∧ a.binding ≤ a.location) := by
  refine ⟨reflectAttributeDesc_shape, ?_⟩
  intro vars
  induction vars with
  | nil =>
      intro out h a ha
      simp only [generate_attributes] at h
      injection h with h
      subst h
      simp at ha
  | cons v rest ih =>
      intro out h a ha
      simp only [generate_attributes] at h
      cases hr : reflectAttributeDesc v with
      | error e => rw [hr] at h; simp [Bind.bind, Except.bind] at h
      | ok r =>
          rw [hr] at h
          cases ht : generate_attributes rest with
          | error e => rw [ht] at h; simp [Bind.bind, Except.bind] at h
          | ok tr =>
              rw [ht] at h
              simp only [Bind.bind, Except.bind, Except.ok.injEq] at h
              subst h
              obtain ⟨hb, hl, ho⟩ := reflectAttributeDesc_shape v r hr
              rcases List.mem_append.mp ha with hx | hx
              · cases hd : v.array_dims with
                | nil =>
                    rw [hd] at hx
                    simp at hx
                    subst hx
                    exact ⟨ho, by omega⟩
                | cons k ds =>
                    rw [hd] at hx
                    simp only [List.mem_map, List.mem_range] at hx
                    obtain ⟨n, hn, hx⟩ := hx
                    subst hx
                    exact ⟨ho, by simp; omega⟩
              · exact ih tr ht a hx

/-- C10 (witness): the amended claim applied to the expanded descriptor at
location 6 of the dims-`[2]` variable. -/
theorem claim_C10_witness :
    (AttributeDesc.mk 6 5 (Element.mk Format.R32Float 0)).element.offset = 0
    ∧ (AttributeDesc.mk 6 5 (Element.mk Format.R32Float 0)).binding
        ≤ (AttributeDesc.mk 6 5 (Element.mk Format.R32Float 0)).location :=
  claim_C10.2 [varArr2]
    [AttributeDesc.mk 5 5 (Element.mk Format.R32Float 0),
     AttributeDesc.mk 6 5 (Element.mk Format.R32Float 0)] rfl
    (AttributeDesc.mk 6 5 (Element.mk Format.R32Float 0)) (by decide)

end Rendy
